import Mathlib

/-!
Shallow embedding of the acerhdf Predator fan-control driver (src/acerhdf.c).

The driver's global variables become fields of an explicit `DriverState`;
the embedded-controller (EC) port becomes a per-invocation response record
plus an emitted trace of read/write operations; fallible C functions return
`Except`-style results or error codes.  Machine arithmetic on `unsigned int`
is modelled with `Nat` and explicit reduction modulo 2^32 where the C code
can overflow.
-/

namespace Acerhdf

/-- `#define TEMPERATURE_SAMPLES 10` -/
def TEMPERATURE_SAMPLES : Nat := 10

/-- `#define MIN_FAN_SPEED 4` -/
def MIN_FAN_SPEED : Int := 4

/-- `#define ACERHDF_TEMP_CRIT 89` -/
def ACERHDF_TEMP_CRIT : Int := 89

/-- `#define ACERHDF_MAX_FANON 80000` -/
def ACERHDF_MAX_FANON : Nat := 80000

/-- `#define ACERHDF_MAX_INTERVAL 15` -/
def ACERHDF_MAX_INTERVAL : Nat := 15

/-- `#define ACERHDF_FAN_AUTO 1` -/
def ACERHDF_FAN_AUTO : Int := 1

/-- Linux `EINVAL` errno value; the driver returns `-EINVAL`. -/
def EINVAL : Int := 22

/-- Linux `ECANCELED` errno value; the driver returns `-ECANCELED`. -/
def ECANCELED : Int := 125

/-- 2^32, the modulus of C `unsigned int` arithmetic. -/
def U32_MOD : Nat := 4294967296

/-- 2^31, the first value that flips the sign bit of a C `int`. -/
def I32_HALF : Nat := 2147483648

/-- Reinterpretation of a 32-bit unsigned value as a C `int`
(two's-complement), as happens when the driver stores an `unsigned int`
expression into an `int *` output parameter. -/
def toSigned32 (n : Nat) : Int :=
  if n % U32_MOD < I32_HALF then ((n % U32_MOD : Nat) : Int)
  else ((n % U32_MOD : Nat) : Int) - (U32_MOD : Int)

/-- C `unsigned int` subtraction `a - b`, wrapping modulo 2^32. -/
def u32_sub (a b : Nat) : Nat :=
  (a % U32_MOD + (U32_MOD - b % U32_MOD)) % U32_MOD

/-- `struct fancmd` from the source. -/
structure fancmd where
  cmd_off : Nat
  cmd_auto : Nat
deriving DecidableEq, Repr

/-- `struct bios_settings`: one row of the probe table. -/
structure bios_settings where
  vendor : List Char
  product : List Char
  version : List Char
  fanreg : Nat
  tempreg : Nat
  cmd : fancmd
  mcmd_enable : Bool
deriving DecidableEq, Repr

/-- `struct ctrl_settings`: the active configuration copied at init. -/
structure ctrl_settings where
  fanreg : Nat
  tempreg : Nat
  cmd : fancmd
  mcmd_enable : Bool
deriving DecidableEq, Repr

/-- `bios_tbl`: the Predator PH517-51 row followed by the all-zero
sentinel row. -/
def bios_tbl : List bios_settings :=
  [⟨"Acer".toList, "Predator PH517-51".toList, "V1.06".toList, 0x4f, 0x58,
    ⟨0x14, 0x04⟩, true⟩,
   ⟨[], [], [], 0, 0, ⟨0, 0⟩, false⟩]

/-- The `ctrl_cfg` produced by a successful probe on the Predator row. -/
def ctrl_cfg : ctrl_settings := ⟨0x4f, 0x58, ⟨0x14, 0x04⟩, true⟩

/-- The driver's mutable globals, collected into one explicit state:
`kernelmode`, `interval`, `fanon`, `fanoff`, `prev_interval`, `samples`,
`current_sample`, `fanstate`, and the thermal zone's `polling_delay`. -/
structure DriverState where
  kernelmode : Bool
  interval : Nat
  fanon : Nat
  fanoff : Nat
  prev_interval : Nat
  samples : List Int
  current_sample : Nat
  fanstate : Int
  polling_delay : Nat
deriving DecidableEq, Repr

/-- One EC port operation, as observed on the bus. -/
inductive ECOp where
  | read : Nat → ECOp
  | write : Nat → Int → ECOp
deriving DecidableEq, Repr

/-- The EC's responses for one control-loop invocation: the byte returned
by reading `tempreg` and the byte returned by reading `fanreg`
(`none` models a failed `ec_read`). -/
structure ECResponses where
  tempRead : Option Nat
  fanRead : Option Nat
deriving DecidableEq, Repr

/-- Result of one `acerhdf_set_cur_state` invocation: C return code,
resulting driver state, and the trace of EC operations performed. -/
structure LoopResult where
  ret : Int
  st : DriverState
  trace : List ECOp
deriving DecidableEq, Repr

/-- `acerhdf_change_fanstate`: records the new state in the `fanstate`
global and writes the state byte (C cast to `unsigned char`) to the
fan register. -/
def acerhdf_change_fanstate (cfg : ctrl_settings) (st : DriverState)
    (state : Int) : DriverState × List ECOp :=
  ({ st with fanstate := state }, [ECOp.write cfg.fanreg (Int.emod state 256)])

/-- `acerhdf_revert_to_bios_mode`: write fan state 5, clear `kernelmode`,
zero the polling delay. -/
def acerhdf_revert_to_bios_mode (cfg : ctrl_settings) (st : DriverState) :
    DriverState × List ECOp :=
  let r := acerhdf_change_fanstate cfg st 5
  ({ r.1 with kernelmode := false, polling_delay := 0 }, r.2)

/-- The `current_sample++; if (current_sample > TEMPERATURE_SAMPLES - 1)
current_sample = 0;` cursor step. -/
def nextSample (cs : Nat) : Nat :=
  if cs + 1 > TEMPERATURE_SAMPLES - 1 then 0 else cs + 1

/-- The summation loop `for (i = 0; i < TEMPERATURE_SAMPLES; i++)
cur_temp += samples[i];`. -/
def sumSamples (samples : List Int) : Int :=
  samples.foldl (fun a b => a + b) 0

/-- `cur_temp = cur_temp / TEMPERATURE_SAMPLES;` — C `int` division
truncates toward zero, which is `Int.tdiv`. -/
def smoothedTemp (samples : List Int) : Int :=
  Int.tdiv (sumSamples samples) (TEMPERATURE_SAMPLES : Int)

/-- The hardcoded fan table of `acerhdf_set_cur_state` followed by the
`MIN_FAN_SPEED` clamp, factored out as the pure schedule it is. -/
def fanSchedule (cur_temp : Int) : Int :=
  let state : Int :=
    if cur_temp < 40 then 3
    else if cur_temp < 45 then 4
    else if cur_temp < 48 then 5
    else if cur_temp < 50 then 6
    else if cur_temp < 55 then 7
    else if cur_temp < 60 then 8
    else if cur_temp < 65 then 9
    else if cur_temp < 70 then 10
    else 11
  if state < MIN_FAN_SPEED then MIN_FAN_SPEED else state

/-- `acerhdf_set_cur_state`: the control-loop tick.  The incoming
`_state` argument is the governor's requested cooling state.  Per C:
if not in kernel mode return 0; read the temperature into
`samples[current_sample]` and advance the cursor (the slot is left
untouched when the read fails); on read failure revert to BIOS mode and
return `-EINVAL`; otherwise average the ring, read the current fan state
(failure again reverts), derive the new state from the table plus clamp,
and write it to the fan register. -/
def acerhdf_set_cur_state (cfg : ctrl_settings) (_state : Nat)
    (st : DriverState) (ec : ECResponses) : LoopResult :=
  if !st.kernelmode then ⟨0, st, []⟩
  else
    match ec.tempRead with
    | none =>
      let st1 := { st with current_sample := nextSample st.current_sample }
      let r := acerhdf_revert_to_bios_mode cfg st1
      ⟨-EINVAL, r.1, ECOp.read cfg.tempreg :: r.2⟩
    | some t =>
      let samples1 := st.samples.set st.current_sample ((t % 256 : Nat) : Int)
      let st1 := { st with samples := samples1,
                           current_sample := nextSample st.current_sample }
      let cur_temp := smoothedTemp samples1
      match ec.fanRead with
      | none =>
        let r := acerhdf_revert_to_bios_mode cfg st1
        ⟨-EINVAL, r.1, [ECOp.read cfg.tempreg, ECOp.read cfg.fanreg] ++ r.2⟩
      | some _cur_state =>
        let r := acerhdf_change_fanstate cfg st1 (fanSchedule cur_temp)
        ⟨0, r.1, [ECOp.read cfg.tempreg, ECOp.read cfg.fanreg] ++ r.2⟩

/-- `acerhdf_check_param`: clamp `fanon` to `ACERHDF_MAX_FANON`; in kernel
mode, when `interval` differs from `prev_interval`, clamp it to
`ACERHDF_MAX_INTERVAL`, refresh the polling delay as `interval * 1000`
and record the new `prev_interval`. -/
def acerhdf_check_param (st : DriverState) : DriverState :=
  let st1 :=
    if st.fanon > ACERHDF_MAX_FANON then { st with fanon := ACERHDF_MAX_FANON }
    else st
  if st1.kernelmode && (st1.prev_interval != st1.interval) then
    let st2 :=
      if st1.interval > ACERHDF_MAX_INTERVAL then
        { st1 with interval := ACERHDF_MAX_INTERVAL }
      else st1
    { st2 with polling_delay := st2.interval * 1000,
               prev_interval := st2.interval }
  else st1

/-- `acerhdf_get_ec_temp`: the thermal zone's `get_temp` callback.  It runs
`acerhdf_check_param` and then performs a raw EC temperature read
(`resp = none` models a failed `ec_read`). -/
def acerhdf_get_ec_temp (st : DriverState) (resp : Option Nat) :
    Except Int Int × DriverState :=
  let st1 := acerhdf_check_param st
  match resp with
  | none => (Except.error (-EINVAL), st1)
  | some t => (Except.ok ((t % 256 : Nat) : Int), st1)

/-- Thermal trip kinds used by the driver. -/
inductive trip_kind where
  | active : trip_kind
  | critical : trip_kind
deriving DecidableEq, Repr

/-- `acerhdf_get_trip_type`: trip 0 is ACTIVE, trip 1 is CRITICAL,
anything else is `-EINVAL`. -/
def acerhdf_get_trip_type (trip : Int) : Except Int trip_kind :=
  if trip = 0 then Except.ok trip_kind.active
  else if trip = 1 then Except.ok trip_kind.critical
  else Except.error (-EINVAL)

/-- `acerhdf_get_trip_temp`: trip 0 reports the `fanon` global (an
`unsigned int` stored into an `int *`), trip 1 reports the critical
temperature, anything else is `-EINVAL`. -/
def acerhdf_get_trip_temp (fanon : Nat) (trip : Int) : Except Int Int :=
  if trip = 0 then Except.ok (toSigned32 fanon)
  else if trip = 1 then Except.ok ACERHDF_TEMP_CRIT
  else Except.error (-EINVAL)

/-- `acerhdf_get_trip_hyst`: only trip 0 is valid and reports
`fanon - fanoff`, computed in `unsigned int` arithmetic and stored into
an `int *`. -/
def acerhdf_get_trip_hyst (fanon fanoff : Nat) (trip : Int) :
    Except Int Int :=
  if trip ≠ 0 then Except.error (-EINVAL)
  else Except.ok (toSigned32 (u32_sub fanon fanoff))

/-- `acerhdf_get_crit_temp`: always reports `ACERHDF_TEMP_CRIT`. -/
def acerhdf_get_crit_temp : Int := ACERHDF_TEMP_CRIT

/-- `str_starts_with`: `strlen(str) >= strlen(start)` and
`strncmp(str, start, strlen(start)) == 0`; `strncmp` over the first `n`
bytes of NUL-terminated strings agrees with comparing the length-`n`
prefixes of the character lists. -/
def str_starts_with (str start : List Char) : Bool :=
  decide (start.length ≤ str.length) &&
    (str.take start.length == start.take start.length)

/-- The probe-table search loop of `acerhdf_check_hardware`: walk the
table while `bt->vendor[0]` is non-NUL; the first row whose vendor,
product and version all satisfy `str_starts_with` against the observed
identity is returned. -/
def findBios (vendor product version : List Char) :
    List bios_settings → Option bios_settings
  | [] => none
  | bt :: rest =>
    if bt.vendor = [] then none
    else if str_starts_with vendor bt.vendor &&
            str_starts_with product bt.product &&
            str_starts_with version bt.version then some bt
    else findBios vendor product version rest

/-- `acerhdf_check_hardware`: fail with `-EINVAL` when any DMI string is
absent; `-ECANCELED` under `list_supported`; apply `force_bios` /
`force_product` overrides (each forces kernel mode off); then search
`bios_tbl`, failing with `-EINVAL` when no row matches and otherwise
copying the matched row into the active configuration.  Returns the
C return code, the configuration when one was selected, and the
resulting `kernelmode` flag. -/
def acerhdf_check_hardware (dmiVendor dmiVersion dmiProduct : Option (List Char))
    (list_supported : Bool) (force_bios force_product : List Char)
    (kernelmode : Bool) : Int × Option ctrl_settings × Bool :=
  match dmiVendor, dmiVersion, dmiProduct with
  | some vendor, some version, some product =>
    if list_supported then (-ECANCELED, none, kernelmode)
    else
      let version1 := if force_bios ≠ [] then force_bios else version
      let km1 := if force_bios ≠ [] then false else kernelmode
      let product1 := if force_product ≠ [] then force_product else product
      let km2 := if force_product ≠ [] then false else km1
      match findBios vendor product1 version1 bios_tbl with
      | none => (-EINVAL, none, km2)
      | some bt =>
        (0, some ⟨bt.fanreg, bt.tempreg, bt.cmd, bt.mcmd_enable⟩, km2)
  | _, _, _ => (-EINVAL, none, kernelmode)

/-- The driver's state right after a normal init: kernel mode on,
`interval = 1`, `fanon = 30`, `fanoff = 53000`, `prev_interval = 0`,
zero-filled sample ring, cursor 0, `fanstate = ACERHDF_FAN_AUTO`,
polling delay `interval * 1000`. -/
def initState : DriverState :=
  { kernelmode := true, interval := 1, fanon := 30, fanoff := 53000,
    prev_interval := 0, samples := List.replicate TEMPERATURE_SAMPLES 0,
    current_sample := 0, fanstate := ACERHDF_FAN_AUTO, polling_delay := 1000 }

/-- One tick with the EC reporting temperature 70 and a successful
fan-state read, keeping only the resulting driver state. -/
def tick70 (st : DriverState) : DriverState :=
  (acerhdf_set_cur_state ctrl_cfg 0 st ⟨some 70, some 1⟩).st

/-- `runTicks n st`: `n` consecutive `tick70` invocations. -/
def runTicks : Nat → DriverState → DriverState
  | 0, st => st
  | n + 1, st => runTicks n (tick70 st)

end Acerhdf

namespace Acerhdf

/-! ### Specification-side definitions (transcribed from the spec's words,
for refinement comparisons only) -/

/-- Modelled from the spec's fan-schedule table: each row carries both of
its bounds, and the clamp is written as `max s MIN_FAN_SPEED`. -/
def specFanSchedule (t : Int) : Int :=
  max (if t < 40 then 3
    else if 40 ≤ t ∧ t < 45 then 4
    else if 45 ≤ t ∧ t < 48 then 5
    else if 48 ≤ t ∧ t < 50 then 6
    else if 50 ≤ t ∧ t < 55 then 7
    else if 55 ≤ t ∧ t < 60 then 8
    else if 60 ≤ t ∧ t < 65 then 9
    else if 65 ≤ t ∧ t < 70 then 10
    else 11) MIN_FAN_SPEED

/-- The spec's notion of identity-string matching: the observed string is
at least as long as the row string and the first `row.length` characters
agree. -/
def specStartsB (observed row : List Char) : Bool :=
  decide (row.length ≤ observed.length) && (observed.take row.length == row)

/-- A probe-table row matches per the spec when its vendor, product and
version all satisfy `specStartsB` against the observed identity. -/
def specRowMatchB (vendor product version : List Char)
    (bt : bios_settings) : Bool :=
  specStartsB vendor bt.vendor && specStartsB product bt.product &&
    specStartsB version bt.version

/-! ### Helper lemmas -/

/-- Outside kernel mode the control-loop tick does nothing: success,
unchanged state, empty EC trace. -/
theorem set_cur_state_of_not_kernelmode (cfg : ctrl_settings) (s : Nat)
    (st : DriverState) (ec : ECResponses) (h : st.kernelmode = false) :
    acerhdf_set_cur_state cfg s st ec = ⟨0, st, []⟩ := by
  simp [acerhdf_set_cur_state, h]

/-- Exhaustive interval case analysis of `fanSchedule`: each interval of
the hardcoded table together with the value `fanSchedule` takes on it
(after the `MIN_FAN_SPEED` clamp). -/
theorem fanSchedule_cases (t : Int) :
    (t < 40 ∧ fanSchedule t = 4) ∨
    (40 ≤ t ∧ t < 45 ∧ fanSchedule t = 4) ∨
    (45 ≤ t ∧ t < 48 ∧ fanSchedule t = 5) ∨
    (48 ≤ t ∧ t < 50 ∧ fanSchedule t = 6) ∨
    (50 ≤ t ∧ t < 55 ∧ fanSchedule t = 7) ∨
    (55 ≤ t ∧ t < 60 ∧ fanSchedule t = 8) ∨
    (60 ≤ t ∧ t < 65 ∧ fanSchedule t = 9) ∨
    (65 ≤ t ∧ t < 70 ∧ fanSchedule t = 10) ∨
    (70 ≤ t ∧ fanSchedule t = 11) := by
  simp only [fanSchedule, MIN_FAN_SPEED]
  split_ifs <;> omega

/-- The same exhaustive interval case analysis for the spec-side
schedule. -/
theorem specFanSchedule_cases (t : Int) :
    (t < 40 ∧ specFanSchedule t = 4) ∨
    (40 ≤ t ∧ t < 45 ∧ specFanSchedule t = 4) ∨
    (45 ≤ t ∧ t < 48 ∧ specFanSchedule t = 5) ∨
    (48 ≤ t ∧ t < 50 ∧ specFanSchedule t = 6) ∨
    (50 ≤ t ∧ t < 55 ∧ specFanSchedule t = 7) ∨
    (55 ≤ t ∧ t < 60 ∧ specFanSchedule t = 8) ∨
    (60 ≤ t ∧ t < 65 ∧ specFanSchedule t = 9) ∨
    (65 ≤ t ∧ t < 70 ∧ specFanSchedule t = 10) ∨
    (70 ≤ t ∧ specFanSchedule t = 11) := by
  rcases lt_or_le t 40 with h1 | h1
  · refine Or.inl ⟨h1, ?_⟩
    rw [specFanSchedule, if_pos h1]; decide
  have e1 : ¬(t < 40) := by omega
  rcases lt_or_le t 45 with h2 | h2
  · refine Or.inr (Or.inl ⟨h1, h2, ?_⟩)
    rw [specFanSchedule, if_neg e1, if_pos ⟨h1, h2⟩]; decide
  have e2 : ¬(40 ≤ t ∧ t < 45) := by omega
  rcases lt_or_le t 48 with h3 | h3
  · refine Or.inr (Or.inr (Or.inl ⟨h2, h3, ?_⟩))
    rw [specFanSchedule, if_neg e1, if_neg e2, if_pos ⟨h2, h3⟩]
    decide
  have e3 : ¬(45 ≤ t ∧ t < 48) := by omega
  rcases lt_or_le t 50 with h4 | h4
  · refine Or.inr (Or.inr (Or.inr (Or.inl ⟨h3, h4, ?_⟩)))
    rw [specFanSchedule, if_neg e1, if_neg e2, if_neg e3, if_pos ⟨h3, h4⟩]
    decide
  have e4 : ¬(48 ≤ t ∧ t < 50) := by omega
  rcases lt_or_le t 55 with h5 | h5
  · refine Or.inr (Or.inr (Or.inr (Or.inr (Or.inl ⟨h4, h5, ?_⟩))))
    rw [specFanSchedule, if_neg e1, if_neg e2, if_neg e3, if_neg e4,
      if_pos ⟨h4, h5⟩]
    decide
  have e5 : ¬(50 ≤ t ∧ t < 55) := by omega
  rcases lt_or_le t 60 with h6 | h6
  · refine Or.inr (Or.inr (Or.inr (Or.inr (Or.inr (Or.inl ⟨h5, h6, ?_⟩)))))
    rw [specFanSchedule, if_neg e1, if_neg e2, if_neg e3, if_neg e4, if_neg e5,
      if_pos ⟨h5, h6⟩]
    decide
  have e6 : ¬(55 ≤ t ∧ t < 60) := by omega
  rcases lt_or_le t 65 with h7 | h7
  · refine Or.inr (Or.inr (Or.inr (Or.inr (Or.inr (Or.inr (Or.inl ⟨h6, h7, ?_⟩))))))
    rw [specFanSchedule, if_neg e1, if_neg e2, if_neg e3, if_neg e4, if_neg e5,
      if_neg e6, if_pos ⟨h6, h7⟩]
    decide
  have e7 : ¬(60 ≤ t ∧ t < 65) := by omega
  rcases lt_or_le t 70 with h8 | h8
  · refine Or.inr (Or.inr (Or.inr (Or.inr (Or.inr (Or.inr (Or.inr
      (Or.inl ⟨h7, h8, ?_⟩)))))))
    rw [specFanSchedule, if_neg e1, if_neg e2, if_neg e3, if_neg e4, if_neg e5,
      if_neg e6, if_neg e7, if_pos ⟨h7, h8⟩]
    decide
  · have e8 : ¬(65 ≤ t ∧ t < 70) := by omega
    refine Or.inr (Or.inr (Or.inr (Or.inr (Or.inr (Or.inr (Or.inr
      (Or.inr ⟨h8, ?_⟩)))))))
    rw [specFanSchedule, if_neg e1, if_neg e2, if_neg e3, if_neg e4, if_neg e5,
      if_neg e6, if_neg e7, if_neg e8]
    decide

/-- The C `str_starts_with` agrees with the spec's matching relation. -/
theorem str_starts_with_eq_spec (s t : List Char) :
    str_starts_with s t = specStartsB s t := by
  simp [str_starts_with, specStartsB, List.take_length]

/-- The probe-table loop returns exactly the first spec-matching row among
the rows that precede the sentinel. -/
theorem findBios_eq_spec (v p ver : List Char) (tbl : List bios_settings) :
    findBios v p ver tbl =
      (tbl.takeWhile (fun bt => !(bt.vendor == []))).find?
        (specRowMatchB v p ver) := by
  induction tbl with
  | nil => rfl
  | cons bt rest ih =>
    by_cases hv : bt.vendor = []
    · simp [findBios, List.takeWhile_cons, hv]
    · have hcond : (str_starts_with v bt.vendor &&
          str_starts_with p bt.product && str_starts_with ver bt.version)
          = specRowMatchB v p ver bt := by
        simp [specRowMatchB, str_starts_with_eq_spec]
      by_cases hm : specRowMatchB v p ver bt = true
      · simp [findBios, List.takeWhile_cons, hv, hcond, hm, List.find?_cons]
      · simp only [Bool.not_eq_true] at hm
        simp [findBios, List.takeWhile_cons, hv, hcond, hm, List.find?_cons, ih]

end Acerhdf
namespace Acerhdf

/-! ### Claim theorems -/

/-- C2: for every smoothed temperature `t` the driver's fan schedule agrees
with the spec's table followed by the `max(s, MIN_FAN_SPEED)` clamp, and the
boundary temperatures 39, 40, 47, 48, 69, 70 yield states 4, 4, 5, 6, 10,
11 respectively. -/
theorem fan_schedule_matches_spec_table :
    (∀ t : Int, fanSchedule t = specFanSchedule t) ∧
    fanSchedule 39 = 4 ∧ fanSchedule 40 = 4 ∧ fanSchedule 47 = 5 ∧
    fanSchedule 48 = 6 ∧ fanSchedule 69 = 10 ∧ fanSchedule 70 = 11 := by
  refine ⟨?_, by decide, by decide, by decide, by decide, by decide, by decide⟩
  intro t
  have h1 := fanSchedule_cases t
  have h2 := specFanSchedule_cases t
  omega

/-- C3: every scheduled fan state lies between `MIN_FAN_SPEED = 4` and 11,
and the schedule is monotonic non-decreasing in the smoothed temperature. -/
theorem fan_schedule_bounds_and_monotone :
    (∀ t : Int, MIN_FAN_SPEED ≤ fanSchedule t ∧ fanSchedule t ≤ 11) ∧
    (∀ t1 t2 : Int, t1 ≤ t2 → fanSchedule t1 ≤ fanSchedule t2) := by
  constructor
  · intro t
    have h1 := fanSchedule_cases t
    simp only [MIN_FAN_SPEED]
    omega
  · intro t1 t2 h
    have h1 := fanSchedule_cases t1
    have h2 := fanSchedule_cases t2
    omega

-- Witness for C3 at the concrete pair 42 ≤ 51.
theorem fan_schedule_bounds_and_monotone_witness :
    fanSchedule 42 ≤ fanSchedule 51 :=
  fan_schedule_bounds_and_monotone.2 42 51 (by decide)

/-- C4: the governor-requested cooling state never influences the tick's
outcome — for any two requested states, the return code, the resulting
driver state and the EC trace coincide. -/
theorem governor_request_ignored (cfg : ctrl_settings) (s1 s2 : Nat)
    (st : DriverState) (ec : ECResponses) :
    acerhdf_set_cur_state cfg s1 st ec = acerhdf_set_cur_state cfg s2 st ec :=
  rfl

/-- C5: from the zero-filled ring with the EC reporting 70 each tick, the
first tick smooths to `(9·0 + 70)/10 = 7` and writes fan state 4 (the
table's 3 clamped up to `MIN_FAN_SPEED`); the tenth tick smooths to 70 and
writes fan state 11. -/
theorem cold_start_ticks :
    smoothedTemp (runTicks 1 initState).samples = 7 ∧
    (acerhdf_set_cur_state ctrl_cfg 0 initState ⟨some 70, some 1⟩).trace
      = [ECOp.read 0x58, ECOp.read 0x4f, ECOp.write 0x4f 4] ∧
    fanSchedule 7 = MIN_FAN_SPEED ∧
    smoothedTemp (runTicks 10 initState).samples = 70 ∧
    (acerhdf_set_cur_state ctrl_cfg 0 (runTicks 9 initState)
        ⟨some 70, some 1⟩).trace
      = [ECOp.read 0x58, ECOp.read 0x4f, ECOp.write 0x4f 11] ∧
    fanSchedule 70 = 11 := by
  refine ⟨by decide, by decide, by decide, by decide, by decide, by decide⟩

/-- C6: outside kernel mode a control-loop invocation returns success,
performs no EC operation at all, and leaves the driver state — sample
ring, cursor and everything else — unchanged. -/
theorem bios_mode_tick_is_noop (cfg : ctrl_settings) (s : Nat)
    (st : DriverState) (ec : ECResponses) (h : st.kernelmode = false) :
    acerhdf_set_cur_state cfg s st ec = ⟨0, st, []⟩ :=
  set_cur_state_of_not_kernelmode cfg s st ec h

-- Witness for C6 on a concrete BIOS-mode state.
theorem bios_mode_tick_is_noop_witness :
    acerhdf_set_cur_state ctrl_cfg 3 { initState with kernelmode := false }
        ⟨some 70, some 1⟩
      = ⟨0, { initState with kernelmode := false }, []⟩ :=
  bios_mode_tick_is_noop ctrl_cfg 3 { initState with kernelmode := false }
    ⟨some 70, some 1⟩ rfl

end Acerhdf
namespace Acerhdf

/-- C1: an EC failure (temperature read or fan-state read) during a
kernel-mode tick makes the loop write fan state 5 to the fan register,
drop to BIOS mode with polling delay 0, and return `-EINVAL`; any tick
taken from the resulting state is then a no-op. -/
theorem ec_failure_reverts_to_bios (cfg : ctrl_settings) (s : Nat)
    (st : DriverState) (ec : ECResponses) (hk : st.kernelmode = true)
    (hf : ec.tempRead = none ∨ ec.fanRead = none) :
    (acerhdf_set_cur_state cfg s st ec).st.kernelmode = false ∧
    (acerhdf_set_cur_state cfg s st ec).st.polling_delay = 0 ∧
    (acerhdf_set_cur_state cfg s st ec).st.fanstate = 5 ∧
    ECOp.write cfg.fanreg 5 ∈ (acerhdf_set_cur_state cfg s st ec).trace ∧
    (acerhdf_set_cur_state cfg s st ec).ret = -EINVAL ∧
    -EINVAL ≠ (0 : Int) ∧
    (∀ s2 ec2,
      acerhdf_set_cur_state cfg s2 (acerhdf_set_cur_state cfg s st ec).st ec2
        = ⟨0, (acerhdf_set_cur_state cfg s st ec).st, []⟩) := by
  have hemod : Int.emod 5 256 = 5 := rfl
  obtain ⟨stR, trR, hred, hkm, hpd, hfs, hmem⟩ :
      ∃ stR trR, acerhdf_set_cur_state cfg s st ec = ⟨-EINVAL, stR, trR⟩ ∧
        stR.kernelmode = false ∧ stR.polling_delay = 0 ∧ stR.fanstate = 5 ∧
        ECOp.write cfg.fanreg 5 ∈ trR := by
    rcases hf with hT | hF
    · refine
        ⟨{ st with
             current_sample := nextSample st.current_sample,
             fanstate := 5, kernelmode := false, polling_delay := 0 },
         [ECOp.read cfg.tempreg, ECOp.write cfg.fanreg 5],
         ?_, rfl, rfl, rfl, by simp⟩
      simp [acerhdf_set_cur_state, hk, hT, acerhdf_revert_to_bios_mode,
        acerhdf_change_fanstate, hemod]
    · rcases hTe : ec.tempRead with _ | t
      · refine
          ⟨{ st with
               current_sample := nextSample st.current_sample,
               fanstate := 5, kernelmode := false, polling_delay := 0 },
           [ECOp.read cfg.tempreg, ECOp.write cfg.fanreg 5],
           ?_, rfl, rfl, rfl, by simp⟩
        simp [acerhdf_set_cur_state, hk, hTe, acerhdf_revert_to_bios_mode,
          acerhdf_change_fanstate, hemod]
      · refine
          ⟨{ st with
               samples := st.samples.set st.current_sample ((t % 256 : Nat) : Int),
               current_sample := nextSample st.current_sample,
               fanstate := 5, kernelmode := false, polling_delay := 0 },
           [ECOp.read cfg.tempreg, ECOp.read cfg.fanreg,
             ECOp.write cfg.fanreg 5],
           ?_, rfl, rfl, rfl, by simp⟩
        simp [acerhdf_set_cur_state, hk, hTe, hF, acerhdf_revert_to_bios_mode,
          acerhdf_change_fanstate, hemod]
  rw [hred]
  exact ⟨hkm, hpd, hfs, hmem, rfl, by decide,
    fun s2 ec2 => set_cur_state_of_not_kernelmode cfg s2 stR ec2 hkm⟩

-- Witness for C1: a failed temperature read from the initial state.
theorem ec_failure_reverts_to_bios_witness :
    (acerhdf_set_cur_state ctrl_cfg 0 initState ⟨none, some 1⟩).st.kernelmode
        = false ∧
    (acerhdf_set_cur_state ctrl_cfg 0 initState ⟨none, some 1⟩).st.polling_delay
        = 0 ∧
    ECOp.write ctrl_cfg.fanreg 5
        ∈ (acerhdf_set_cur_state ctrl_cfg 0 initState ⟨none, some 1⟩).trace ∧
    (acerhdf_set_cur_state ctrl_cfg 0 initState ⟨none, some 1⟩).ret
        = -EINVAL := by
  have h := ec_failure_reverts_to_bios ctrl_cfg 0 initState ⟨none, some 1⟩
    rfl (Or.inl rfl)
  exact ⟨h.1, h.2.1, h.2.2.2.1, h.2.2.2.2.1⟩

/-- C7: `findBios` returns exactly the first pre-sentinel row whose three
identity strings match per the spec's notion (row no longer than the
observed string and equal on the first `row.length` characters, so the
empty row string matches anything), and when no row matches,
`acerhdf_check_hardware` fails with the non-success code `-EINVAL`. -/
theorem identity_match_first_row :
    (∀ s : List Char, str_starts_with s [] = true) ∧
    (∀ s t : List Char, str_starts_with s t = specStartsB s t) ∧
    (∀ (tbl : List bios_settings) (v p ver : List Char),
      findBios v p ver tbl =
        (tbl.takeWhile (fun bt => !(bt.vendor == []))).find?
          (specRowMatchB v p ver)) ∧
    (∀ v p ver : List Char,
      findBios v p ver bios_tbl = none →
        (acerhdf_check_hardware (some v) (some ver) (some p) false [] [] true).1
            = -EINVAL ∧ -EINVAL ≠ (0 : Int)) := by
  refine ⟨?_, str_starts_with_eq_spec,
    fun tbl v p ver => findBios_eq_spec v p ver tbl, ?_⟩
  · intro s
    simp [str_starts_with]
  · intro v p ver h
    refine ⟨?_, by decide⟩
    simp [acerhdf_check_hardware, h]

-- Witness for C7: an unsupported vendor makes the probe fail.
theorem identity_match_first_row_witness :
    (acerhdf_check_hardware (some "Dell".toList) (some "A".toList)
        (some "B".toList) false [] [] true).1 = -EINVAL ∧
    -EINVAL ≠ (0 : Int) :=
  identity_match_first_row.2.2.2 "Dell".toList "B".toList "A".toList (by decide)

end Acerhdf
namespace Acerhdf

/-- A 32-bit value below 2^31 reads back unchanged through the
unsigned-to-int store. -/
theorem toSigned32_small (n : Nat) (h : n < I32_HALF) :
    toSigned32 n = (n : Int) := by
  have h2 : n < U32_MOD := by
    simp only [U32_MOD, I32_HALF] at *
    omega
  simp only [toSigned32]
  rw [Nat.mod_eq_of_lt h2, if_pos h]

/-- For operands below 2^31, the unsigned subtraction followed by the
signed reinterpretation yields the mathematical difference. -/
theorem toSigned32_u32_sub (a b : Nat) (ha : a < I32_HALF)
    (hb : b < I32_HALF) : toSigned32 (u32_sub a b) = (a : Int) - (b : Int) := by
  simp only [toSigned32, u32_sub, U32_MOD, I32_HALF] at *
  split_ifs with h <;> omega

/-- C8: the trip-point accessors: `get_trip_temp` reports `fanon` at
trip 0 and 89 at trip 1, `get_trip_hyst` reports `fanon - fanoff` at
trip 0, `get_trip_type` reports ACTIVE at 0 and CRITICAL at 1, each with
`-EINVAL` on any other index, and `get_crit_temp` reports 89. -/
theorem trip_point_accessors (fanon fanoff : Nat) (trip : Int) :
    (fanon < I32_HALF → acerhdf_get_trip_temp fanon 0 = Except.ok (fanon : Int)) ∧
    acerhdf_get_trip_temp fanon 1 = Except.ok 89 ∧
    (trip ≠ 0 → trip ≠ 1 →
      acerhdf_get_trip_temp fanon trip = Except.error (-EINVAL)) ∧
    (fanon < I32_HALF → fanoff < I32_HALF →
      acerhdf_get_trip_hyst fanon fanoff 0
        = Except.ok ((fanon : Int) - (fanoff : Int))) ∧
    (trip ≠ 0 →
      acerhdf_get_trip_hyst fanon fanoff trip = Except.error (-EINVAL)) ∧
    acerhdf_get_trip_type 0 = Except.ok trip_kind.active ∧
    acerhdf_get_trip_type 1 = Except.ok trip_kind.critical ∧
    (trip ≠ 0 → trip ≠ 1 →
      acerhdf_get_trip_type trip = Except.error (-EINVAL)) ∧
    acerhdf_get_crit_temp = 89 := by
  refine ⟨?_, rfl, ?_, ?_, ?_, rfl, rfl, ?_, rfl⟩
  · intro h
    simp [acerhdf_get_trip_temp, toSigned32_small fanon h]
  · intro h0 h1
    simp [acerhdf_get_trip_temp, h0, h1]
  · intro ha hb
    simp [acerhdf_get_trip_hyst, toSigned32_u32_sub fanon fanoff ha hb]
  · intro h0
    simp [acerhdf_get_trip_hyst, h0]
  · intro h0 h1
    simp [acerhdf_get_trip_type, h0, h1]

-- Witness for C8 with fanon = 60, fanoff = 40, invalid trip index 2.
theorem trip_point_accessors_witness :
    acerhdf_get_trip_temp 60 0 = Except.ok 60 ∧
    acerhdf_get_trip_hyst 60 40 0 = Except.ok 20 ∧
    acerhdf_get_trip_type 2 = Except.error (-EINVAL) := by
  have h := trip_point_accessors 60 40 2
  exact ⟨h.1 (by decide), h.2.2.2.1 (by decide) (by decide),
    h.2.2.2.2.2.2.2.1 (by decide) (by decide)⟩

/-- C9: the parameter clamp hook leaves `fanon` at most 80000 on every
invocation; in kernel mode with a changed `interval` it forces
`interval ≤ 15` and repolls at `interval * 1000` milliseconds; and the
`get_temp` callback runs exactly this hook on the driver state. -/
theorem check_param_clamps (st : DriverState) (resp : Option Nat) :
    (acerhdf_check_param st).fanon ≤ ACERHDF_MAX_FANON ∧
    (st.kernelmode = true → st.prev_interval ≠ st.interval →
      (acerhdf_check_param st).interval ≤ ACERHDF_MAX_INTERVAL ∧
      (acerhdf_check_param st).polling_delay
        = (acerhdf_check_param st).interval * 1000) ∧
    (acerhdf_get_ec_temp st resp).2 = acerhdf_check_param st := by
  refine ⟨?_, ?_, ?_⟩
  · simp only [acerhdf_check_param, ACERHDF_MAX_FANON]
    split_ifs <;> simp_all
  · intro hk hi
    simp only [acerhdf_check_param, ACERHDF_MAX_INTERVAL]
    split_ifs <;> simp_all
  · cases resp <;> rfl

-- Witness for C9: oversized fanon and a changed, oversized interval.
theorem check_param_clamps_witness :
    (acerhdf_check_param
        { initState with fanon := 100000, interval := 20 }).interval
      ≤ ACERHDF_MAX_INTERVAL ∧
    (acerhdf_check_param
        { initState with fanon := 100000, interval := 20 }).polling_delay
      = (acerhdf_check_param
          { initState with fanon := 100000, interval := 20 }).interval * 1000 :=
  (check_param_clamps { initState with fanon := 100000, interval := 20 }
    (some 70)).2.1 rfl (by decide)

/-- C10: `get_trip_hyst` computes `fanon - fanoff` as a wrapped unsigned
32-bit value before the signed store, so the default parameters
`fanon = 30`, `fanoff = 53000` report the negative hysteresis `-52970`
(equal to the mathematical difference, not an error or a clamp). -/
theorem trip_hyst_unsigned_wrap :
    acerhdf_get_trip_hyst 30 53000 0 = Except.ok (-52970) ∧
    u32_sub 30 53000 = 4294914326 ∧
    (4294967296 + 30 - 53000) % 4294967296 = 4294914326 ∧
    toSigned32 4294914326 = -52970 ∧
    (-52970 : Int) = (30 : Int) - 53000 ∧
    (-52970 : Int) < 0 :=
  ⟨rfl, by decide, by decide, by decide, by decide, by decide⟩

end Acerhdf
